import Mathlib

/-!
Verification of the go-websocket-boilerplate WebSocket gateway.

Shallow embedding of the core of the repository:
- the per-client connection state (WsClient, internal/server/wsclient.go),
- the read pump's handling of a single decoded envelope (processMsg,
  readMessages lines 137-185),
- the expiry rescheduling (setAuthExpireTime, lines 242-247) and the write
  pump's expiry-signal branch (handleAuthChannelFire, lines 225-232),
- the connection manager (addClient / removeClient) and the upgrade handler
  (ServeWs),
- the shipped OpenAuthenticator over the golang-jwt ParseUnverified call.

Machine times (Unix seconds) are Int; goroutine interleavings relevant to the
claims are modelled as explicit step sequences.  A Go runtime panic (nil
pointer dereference) is modelled as an explicit outcome constructor, since it
crashes the process rather than producing a value.
-/

/-- A single JWT claim value.  Only numeric values matter for the expiry
("exp") claim; everything else is opaque to the core. -/
inductive ClaimValue where
  | num (n : Int)
  | str (s : String)
  | other
deriving DecidableEq, Repr

/-- jwt.MapClaims: a map from claim name to value, as an association list. -/
abbrev MapClaims := List (String × ClaimValue)

/-- The first return value of jwt.MapClaims.GetExpirationTime as used by the
code (the error is discarded with a blank identifier at both call sites):
nil when the "exp" claim is absent, zero, or not numeric; otherwise the
expiry as Unix seconds.  A nil result dereferenced via .Unix() is a panic,
modelled by the callers below. -/
def getExpOrNil (c : MapClaims) : Option Int :=
  match c.lookup "exp" with
  | some (ClaimValue.num n) => if n == 0 then none else some n
  | some _ => none
  | none => none

/-- WsClient (internal/server/wsclient.go lines 22-36): the per-connection
state the claims are about.  pendingTimers records the fire times of every
one-shot timer armed by time.AfterFunc that has not yet fired; cancelled is
the state of the lifecycle context; hasConnection models whether the
websocket.Conn pointer is non-nil, socketOpen whether that socket is open. -/
structure WsClient where
  id : Nat
  claims : Option MapClaims
  authenticated : Bool
  expire : Int
  pendingTimers : List Int
  cancelled : Bool
  hasConnection : Bool
  socketOpen : Bool
deriving DecidableEq, Repr

/-- NewClient (lines 87-115): expire falls back to now+30s when authExpire is
zero; authenticated is exactly the presence of pre-validated claims; the
connection pointer is nil until ServeWs assigns it after the upgrade. -/
def NewClient (id : Nat) (claims : Option MapClaims) (authExpire : Int) (now : Int) : WsClient :=
  { id := id
    claims := claims
    authenticated := claims.isSome
    expire := if authExpire == 0 then now + 30 else authExpire
    pendingTimers := []
    cancelled := false
    hasConnection := false
    socketOpen := false }

/-- setAuthExpireTime (lines 242-247): stores the new expiry and arms a fresh
one-shot timer at expire+1 via time.AfterFunc.  No handle to any previously
armed timer is kept, so nothing is stopped or replaced: the new timer is in
addition to whatever is already pending. -/
def setAuthExpireTime (c : WsClient) (expire : Int) : WsClient :=
  { c with expire := expire, pendingTimers := c.pendingTimers ++ [expire + 1] }

/-- Result of net.Conn.Close (to which gorilla's websocket.Conn.Close
delegates): closing an already-closed connection returns an error value, it
never panics.  Modelled from the Go standard library contract for net.Conn. -/
inductive SocketCloseResult where
  | closedOk
  | errAlreadyClosed
  | panicked
deriving DecidableEq, Repr

def connClose (isOpen : Bool) : SocketCloseResult :=
  if isOpen then SocketCloseResult.closedOk else SocketCloseResult.errAlreadyClosed

/-- WsClient.Close (lines 59-64): cancel the lifecycle context, then close the
socket if the connection pointer is non-nil, discarding the close error.
Returns the new state and the socket-close result performed, if any. -/
def closeClient (c : WsClient) : WsClient × Option SocketCloseResult :=
  ({ c with cancelled := true, socketOpen := false },
   if c.hasConnection then some (connClose c.socketOpen) else none)

/-- The decoded data field of an inbound envelope, as far as the core looks at
it: either it unmarshals into AuthMsg, yielding the authToken string (possibly
empty, e.g. for a payload without that field), or unmarshalling fails. -/
inductive RawData where
  | authPayload (tok : String)
  | undecodable
deriving DecidableEq, Repr

/-- IngressMsg (part_002 lines 8-13): the inbound envelope. -/
structure IngressMsg where
  InMsgType : String
  InMsgCh : String
  InMsgID : String
  InMsgData : RawData
deriving DecidableEq, Repr

/-- Outcome of the read pump's processing of one successfully decoded
envelope (readMessages lines 155-184): either the envelope reaches the
ingress channel and the loop continues with the given client state, or the
pump closed the connection and returned before the forward, or the process
panicked on the nil expiration dereference. -/
inductive ReadOutcome where
  | forwarded (c : WsClient)
  | closedNoForward (c : WsClient)
  | panicked
deriving DecidableEq, Repr

/-- readMessages lines 155-184, processing of one decoded envelope.  On a
sys/auth envelope: an undecodable or empty-token payload is only logged and
the envelope still falls through to the ingress send; a rejected token closes
the connection and returns before the ingress send; an accepted token flips
authenticated (first time only, publishing the connected event), replaces the
claims, and dereferences GetExpirationTime's result - a nil dereference
(no usable exp claim) panics - before rescheduling the expiry. -/
def processMsg (validate : String → Except String MapClaims) (c : WsClient)
    (msg : IngressMsg) : ReadOutcome :=
  if msg.InMsgCh == "sys" && msg.InMsgType == "auth" then
    match msg.InMsgData with
    | RawData.undecodable => ReadOutcome.forwarded c
    | RawData.authPayload tok =>
      if tok == "" then ReadOutcome.forwarded c
      else
        match validate tok with
        | Except.error _ => ReadOutcome.closedNoForward (closeClient c).1
        | Except.ok nc =>
          let c1 := if c.authenticated then c else { c with authenticated := true }
          let c2 := { c1 with claims := some nc }
          match getExpOrNil nc with
          | none => ReadOutcome.panicked
          | some e => ReadOutcome.forwarded (setAuthExpireTime c2 e)
  else ReadOutcome.forwarded c

/-- The primitive mutations performed by the auth-success branch of
readMessages (lines 170-177), in order: flip the authenticated flag, invoke
the connected callback (publishConnected, no state change of its own),
assign the new claims, reschedule the expiry. -/
inductive AuthStep where
  | flipAuthenticated
  | publishCallback
  | assignClaims (nc : MapClaims)
  | scheduleExpiry (e : Int)
deriving DecidableEq, Repr

def applyAuthStep (c : WsClient) : AuthStep → WsClient
  | AuthStep.flipAuthenticated => { c with authenticated := true }
  | AuthStep.publishCallback => c
  | AuthStep.assignClaims nc => { c with claims := some nc }
  | AuthStep.scheduleExpiry e => setAuthExpireTime c e

/-- The mutation sequence of the auth-success branch: the flag flip and the
callback happen only when the client was not yet authenticated, and they
happen before the claims assignment (source order of lines 170-177). -/
def authSuccessSteps (c : WsClient) (nc : MapClaims) (e : Int) : List AuthStep :=
  (if c.authenticated then [] else [AuthStep.flipAuthenticated, AuthStep.publishCallback])
    ++ [AuthStep.assignClaims nc, AuthStep.scheduleExpiry e]

def runSteps (c : WsClient) (l : List AuthStep) : WsClient :=
  l.foldl applyAuthStep c

/-- Pair each step of a sequence with the client state in force just before
that step executes. -/
def statesBeforeEachStep (c : WsClient) : List AuthStep → List (AuthStep × WsClient)
  | [] => []
  | s :: rest => (s, c) :: statesBeforeEachStep (applyAuthStep c s) rest

def isPublishStep : AuthStep → Bool
  | AuthStep.publishCallback => true
  | _ => false

/-- The client state observed by the connected callback during the
auth-success block, when the callback is invoked at all. -/
def stateWhenPublished (c : WsClient) (nc : MapClaims) (e : Int) : Option WsClient :=
  (((statesBeforeEachStep c (authSuccessSteps c nc e)).filter
      (fun p => isPublishStep p.1)).head?).map (fun p => p.2)

/-- Start (lines 250-260): spawn the pumps and schedule the first expiry
check from the expiry stored at construction (the pump spawns and the
conditional callback leave the modelled state unchanged). -/
def startClient (c : WsClient) : WsClient :=
  setAuthExpireTime c c.expire

/-- ServeWs assigns the upgraded connection to the client (part_001
line 152). -/
def attachConn (c : WsClient) : WsClient :=
  { c with hasConnection := true, socketOpen := true }

/-- The response of the upgrade handler, as observed by the HTTP client:
a 401 or 400 with its plain-text body, a protocol switch carrying the
registered and started connection state, or a process panic. -/
inductive HttpResponse where
  | unauthorized (body : String)
  | badRequest (body : String)
  | switched (c : WsClient)
  | panicked
deriving DecidableEq, Repr

/-- ServeWs (part_001 lines 99-155): increment nextClientID; if an
Authorization header is present, require the two-part form and a validated
token (401 "Authorize failed." otherwise), then dereference the expiration
(panicking when the accepted claims carry no usable exp, line 133); an
absent header skips authentication entirely.  Then upgrade (400 "Websocket
upgrade error" on failure), attach the socket, register, start. -/
def ServeWs (validate : String → Except String MapClaims) (authHeader : String)
    (upgradeOk : Bool) (nextId : Nat) (now : Int) : HttpResponse :=
  let id := nextId + 1
  if authHeader == "" then
    if upgradeOk then
      HttpResponse.switched (startClient (attachConn (NewClient id none 0 now)))
    else HttpResponse.badRequest "Websocket upgrade error"
  else
    let parts := authHeader.splitOn " "
    if parts.length == 2 then
      match validate (parts.get! 1) with
      | Except.error _ => HttpResponse.unauthorized "Authorize failed."
      | Except.ok claims =>
        match getExpOrNil claims with
        | none => HttpResponse.panicked
        | some e =>
          if upgradeOk then
            HttpResponse.switched (startClient (attachConn (NewClient id (some claims) e now)))
          else HttpResponse.badRequest "Websocket upgrade error"
    else HttpResponse.unauthorized "Authorize failed."

/-- The amended C3 behaviour stated as a response function, following the
corrected wording: an absent Authorization header is not rejected but
proceeds unauthenticated; a present malformed header or a rejected token
yields 401 with a plain-text body; an accepted token without a usable exp
claim panics; an upgrade failure yields 400 with a plain-text body;
otherwise the protocol switches. -/
def gatewaySpec (validate : String → Except String MapClaims) (authHeader : String)
    (upgradeOk : Bool) (nextId : Nat) (now : Int) : HttpResponse :=
  if authHeader == "" then
    if upgradeOk then
      HttpResponse.switched (startClient (attachConn (NewClient (nextId + 1) none 0 now)))
    else HttpResponse.badRequest "Websocket upgrade error"
  else if (authHeader.splitOn " ").length ≠ 2 then
    HttpResponse.unauthorized "Authorize failed."
  else
    match validate ((authHeader.splitOn " ").get! 1) with
    | Except.error _ => HttpResponse.unauthorized "Authorize failed."
    | Except.ok claims =>
      match getExpOrNil claims with
      | none => HttpResponse.panicked
      | some e =>
        if upgradeOk then
          HttpResponse.switched (startClient (attachConn (NewClient (nextId + 1) (some claims) e now)))
        else HttpResponse.badRequest "Websocket upgrade error"

def wasForwarded : ReadOutcome → Bool
  | ReadOutcome.forwarded _ => true
  | _ => false

/-- Spec side of the amended C5: a sys/auth envelope whose decodable
nonempty token the authenticator rejects. -/
def authRejected (validate : String → Except String MapClaims) (msg : IngressMsg) : Bool :=
  msg.InMsgCh == "sys" && msg.InMsgType == "auth" &&
    (match msg.InMsgData with
     | RawData.authPayload tok =>
       !(tok == "") && (match validate tok with
                        | Except.error _ => true
                        | Except.ok _ => false)
     | RawData.undecodable => false)

/-- Spec side of the amended C5: a sys/auth envelope whose decodable
nonempty token the authenticator accepts with claims carrying no usable exp
(the C1 panic case). -/
def authAcceptedNoExp (validate : String → Except String MapClaims) (msg : IngressMsg) : Bool :=
  msg.InMsgCh == "sys" && msg.InMsgType == "auth" &&
    (match msg.InMsgData with
     | RawData.authPayload tok =>
       !(tok == "") && (match validate tok with
                        | Except.ok nc => (getExpOrNil nc).isNone
                        | Except.error _ => false)
     | RawData.undecodable => false)

/-- Outcome of a send on a Go channel with no buffer (egress is created as
make(chan *EgressMsg) in NewClient, line 103): sending on a closed channel
panics; otherwise the send completes only when a receiver is ready, and
blocks forever when none ever is. -/
inductive ChanSendOutcome where
  | delivered
  | blocksForever
  | panicked
deriving DecidableEq, Repr

def chanSend (closed receiverReady : Bool) : ChanSendOutcome :=
  if closed then ChanSendOutcome.panicked
  else if receiverReady then ChanSendOutcome.delivered
  else ChanSendOutcome.blocksForever

/-- No statement in the package ever closes the egress channel: the only
operations on it in the source are the sends in SendResponse / SendUpdate
(lines 49-56) and the receive in writeMessages (line 199). -/
def egressChanClosed : Bool := false

/-- SendResponse and SendUpdate both reduce to a send on egress (lines
49-56); the write pump of writeMessages is the sole receiver, so the outcome
depends only on whether it is still receiving. -/
def sendResponseOutcome (writePumpReceiving : Bool) : ChanSendOutcome :=
  chanSend egressChanClosed writePumpReceiving

/-- A send resolves for its caller when it does not block forever. -/
def sendResolves : ChanSendOutcome → Bool
  | ChanSendOutcome.blocksForever => false
  | _ => true

/-- ConnectionManager.clients: map from connection id to client.  The
association list carries at most one pair per key because insertion
replaces (Go map assignment) and deletion removes the key. -/
abbrev Registry := List (Nat × WsClient)

/-- addClient (part_001 lines 72-76): m.clients[client.ID()] = client under
the manager lock; a map assignment replaces any previous entry at that id. -/
def addClient (m : Registry) (c : WsClient) : Registry :=
  (c.id, c) :: m.filter (fun p => !(p.1 == c.id))

/-- removeClient (part_001 lines 82-90): under the manager lock, only when
the id is still present: close the stored client's connection and delete the
entry.  The second component counts the socket closes performed by the
call. -/
def removeClient (m : Registry) (id : Nat) : Registry × Nat :=
  match m.lookup id with
  | some _ => (m.filter (fun p => !(p.1 == id)), 1)
  | none => (m, 0)

/-- writeMessages, authChannel branch (lines 225-232): on an expiry-timer
fire, log, and write a close frame only when the stored expire is at or
before the current time; no field of the client is assigned in either
branch.  The Bool reports whether a close frame was written. -/
def handleAuthChannelFire (c : WsClient) (now : Int) : WsClient × Bool :=
  if c.expire ≤ now then (c, true) else (c, false)

/-- Local state of one ServeWs invocation racing on the shared nextClientID
counter: tmp is the value read by the unsynchronized nextClientID++
read-modify-write, idRead the value read again when NewClient(m.nextClientID,
...) is called (part_001 lines 100 and 138). -/
structure RaceState where
  nextClientID : Nat
  tmpA : Option Nat
  tmpB : Option Nat
  idA : Option Nat
  idB : Option Nat
deriving DecidableEq, Repr

/-- The atomic sub-steps of two concurrent ServeWs invocations A and B on
the shared counter: read the counter, write back read+1 (the increment at
line 100 is not under the manager lock), then read the counter again as the
id passed to NewClient. -/
inductive RaceStep where
  | readA
  | writeA
  | useA
  | readB
  | writeB
  | useB
deriving DecidableEq, Repr

def raceStep (s : RaceState) : RaceStep → RaceState
  | RaceStep.readA => { s with tmpA := some s.nextClientID }
  | RaceStep.writeA => { s with nextClientID := s.tmpA.getD 0 + 1 }
  | RaceStep.useA => { s with idA := some s.nextClientID }
  | RaceStep.readB => { s with tmpB := some s.nextClientID }
  | RaceStep.writeB => { s with nextClientID := s.tmpB.getD 0 + 1 }
  | RaceStep.useB => { s with idB := some s.nextClientID }

def runRace (l : List RaceStep) (s : RaceState) : RaceState :=
  l.foldl raceStep s

def isAStep : RaceStep → Bool
  | RaceStep.readA => true
  | RaceStep.writeA => true
  | RaceStep.useA => true
  | _ => false

/-- A schedule is a genuine interleaving of the two invocations when each
invocation's own steps occur exactly once and in program order. -/
def programOrderOk (l : List RaceStep) : Bool :=
  l.filter isAStep == [RaceStep.readA, RaceStep.writeA, RaceStep.useA] &&
    l.filter (fun st => !(isAStep st)) == [RaceStep.readB, RaceStep.writeB, RaceStep.useB]

def initRace : RaceState :=
  { nextClientID := 0, tmpA := none, tmpB := none, idA := none, idB := none }

/-- The interleaving in which both handlers read the counter before either
writes it back. -/
def racySchedule : List RaceStep :=
  [RaceStep.readA, RaceStep.readB, RaceStep.writeA, RaceStep.writeB,
   RaceStep.useA, RaceStep.useB]

/-- strings.Split(tok, ".") over a string modelled as its character list:
Go's Split with a one-character separator yields the (possibly empty)
segments between the separators, with one segment more than there are
separators. -/
def splitOnDot : List Char → List (List Char)
  | [] => [[]]
  | ch :: rest =>
    if ch = '.' then [] :: splitOnDot rest
    else
      match splitOnDot rest with
      | [] => [[ch]]
      | seg :: segs => (ch :: seg) :: segs

/-- Modelled from the spec: the golang-jwt Parser.ParseUnverified dependency
is external to this repository; the spec treats token verification as an
opaque validate(token) -> (claims, error) capability.  ParseUnverified by
its contract splits the token into three dot-separated segments, decodes the
header and the claims segments (base64 plus JSON, abstracted here by the two
decode fields), and never reads the signature segment. -/
structure JwtParserModel where
  decodeHeaderOk : List Char → Bool
  decodeClaims : List Char → Option MapClaims

def parseUnverified (P : JwtParserModel) (tok : List Char) : Except String MapClaims :=
  let parts := splitOnDot tok
  if parts.length ≠ 3 then Except.error "token contains an invalid number of segments"
  else if !(P.decodeHeaderOk (parts.get! 0)) then Except.error "could not decode token header"
  else
    match P.decodeClaims (parts.get! 1) with
    | none => Except.error "could not decode token claims"
    | some c => Except.ok c

/-- OpenAuthenticator.ValidateJwt (part_000 lines 14-21): call ParseUnverified
and pass its claims through on success, its error through on failure.  No
signature verification is performed anywhere. -/
def ValidateJwt (P : JwtParserModel) (tok : List Char) : Except String MapClaims :=
  match parseUnverified P tok with
  | Except.error e => Except.error e
  | Except.ok claims => Except.ok claims

def isOkE : Except String MapClaims → Bool
  | Except.ok _ => true
  | Except.error _ => false

/-- A structurally well-formed JWT: header, payload and signature segments
joined by dots. -/
def mkToken (h p s : List Char) : List Char :=
  h ++ '.' :: (p ++ '.' :: s)

/-- A concrete parser model for witnesses: every header decodes, every
payload decodes to an empty claims map. -/
def probeJwtModel : JwtParserModel :=
  { decodeHeaderOk := fun _ => true, decodeClaims := fun _ => some [] }

/-- Claim C1: the core never panics on a single connection's failure; in
particular, for every token the authenticator accepts, extracting the expiry
claim and scheduling the expiry check completes without a crash even when the
claims contain no expiry field, and every failure only closes that connection.
The code violates this: an accepted token whose claims lack "exp" makes
GetExpirationTime return a nil NumericDate with a discarded error, and the
subsequent .Unix() call dereferences nil and panics, crashing the process
(readMessages line 176; the same expression panics in ServeWs line 133). -/
theorem C1_missing_exp_panics :
    processMsg (fun _ => Except.ok [("sub", ClaimValue.str "alice")])
      (NewClient 1 none 0 1000)
      { InMsgType := "auth", InMsgCh := "sys", InMsgID := "", InMsgData := RawData.authPayload "tok" }
      = ReadOutcome.panicked := by
  rfl

/-- Claim C2, counterexample: for a connection that arrived without header
auth (claims absent) and then authenticates in-band, the connected callback
runs at a state with authenticated = true and claims still absent - the
source flips the flag and publishes (lines 171-172) before assigning the
claims (line 174), so the stated invariant fails at that reachable point. -/
theorem C2_callback_sees_absent_claims :
    (stateWhenPublished (NewClient 1 none 0 1000)
        [("sub", ClaimValue.str "alice"), ("exp", ClaimValue.num 2000)] 2000).map
      (fun s => (s.authenticated, s.claims))
      = some (true, none) := by
  decide

/-- Claim C2, amended: the invariant authenticated = true implies claims
present holds at construction (authenticated is exactly the presence of the
pre-validated claims) and at the end of every completed auth-success block
(claims equal the validated claims and authenticated is true); only
transiently inside the block, between the flag flip and the claims
assignment, does the connected callback observe authenticated with absent
claims. -/
theorem C2_invariant_at_construction_and_block_end :
    ∀ (id : Nat) (cl : Option MapClaims) (ae now : Int) (c : WsClient)
      (nc : MapClaims) (e : Int),
      (NewClient id cl ae now).authenticated = cl.isSome
      ∧ (NewClient id cl ae now).claims = cl
      ∧ (runSteps c (authSuccessSteps c nc e)).claims = some nc
      ∧ (runSteps c (authSuccessSteps c nc e)).authenticated = true := by
  intro id cl ae now c nc e
  refine ⟨rfl, rfl, ?_, ?_⟩ <;>
    cases h : c.authenticated <;>
      simp [runSteps, authSuccessSteps, applyAuthStep, setAuthExpireTime, h]

/-- Claim C3, counterexample: an upgrade request with no Authorization header
and a succeeding upgrade is not answered with 401 - authentication is skipped
entirely and the protocol is switched to an unauthenticated connection
(part_001 lines 108-135 run only when the header is nonempty). -/
theorem C3_missing_auth_not_unauthorized :
    ServeWs (fun _ => Except.error "reject all") "" true 0 1000
        = HttpResponse.switched (startClient (attachConn (NewClient 1 none 0 1000)))
    ∧ ServeWs (fun _ => Except.error "reject all") "" true 0 1000
        ≠ HttpResponse.unauthorized "Authorize failed." := by
  decide

/-- Claim C3, amended: a present but malformed (not two-part) header or a
present header whose token the authenticator rejects yields 401 with a
plain-text body and no connection; an absent header skips authentication and
proceeds; an upgrade failure yields 400 with a plain-text body; an accepted
token without a usable exp claim panics (claim C1); otherwise the protocol
switches. -/
theorem C3_gateway_responses :
    ∀ (v : String → Except String MapClaims) (h : String) (upg : Bool)
      (n : Nat) (now : Int),
      ServeWs v h upg n now = gatewaySpec v h upg n now := by
  intro v h upg n now
  unfold ServeWs gatewaySpec
  by_cases hh : (h == "") = true
  · simp [hh]
  · by_cases hl : (h.splitOn " ").length = 2
    · simp [hh, hl]
    · simp [hh, hl]

/-- Claim C4, counterexample: arming the expiry schedule at Start and then
once more on a successful re-authentication leaves two outstanding one-shot
timers (fire times 1031 and 2001), refuting that at most one timer is
outstanding and that rearming replaces the previous schedule. -/
theorem C4_two_timers_outstanding :
    ((setAuthExpireTime (startClient (NewClient 1 none 0 1000)) 2000).pendingTimers
        = [1031, 2001])
    ∧ ¬((setAuthExpireTime (startClient (NewClient 1 none 0 1000)) 2000).pendingTimers.length
        ≤ 1) := by
  decide

/-- Claim C4, amended: setAuthExpireTime stores the new expiry and arms one
additional one-shot timer at expire + 1 via time.AfterFunc; it keeps no
handle to and cancels nothing of any previously armed timer, so rearming
adds to rather than replaces the outstanding schedule. -/
theorem C4_rearm_appends_timer :
    ∀ (c : WsClient) (e : Int),
      (setAuthExpireTime c e).expire = e
      ∧ (setAuthExpireTime c e).pendingTimers = c.pendingTimers ++ [e + 1] := by
  intro c e
  exact ⟨rfl, rfl⟩

/-- Claim C5, counterexample: a decoded sys/auth envelope whose token the
authenticator rejects is not forwarded onto the ingress channel - the pump
closes the connection and returns (lines 164-167) before the ingress send at
line 183. -/
theorem C5_rejected_auth_not_forwarded :
    processMsg (fun _ => Except.error "bad token") (NewClient 1 none 0 1000)
        { InMsgType := "auth", InMsgCh := "sys", InMsgID := "",
          InMsgData := RawData.authPayload "tok" }
      = ReadOutcome.closedNoForward (closeClient (NewClient 1 none 0 1000)).1
    ∧ wasForwarded (processMsg (fun _ => Except.error "bad token")
        (NewClient 1 none 0 1000)
        { InMsgType := "auth", InMsgCh := "sys", InMsgID := "",
          InMsgData := RawData.authPayload "tok" }) = false := by
  decide

/-- Claim C5, amended: every successfully decoded envelope is forwarded onto
the ingress channel - including sys/auth envelopes whose payload fails to
decode, carries an empty token, or authenticates successfully with a usable
expiry - except a sys/auth envelope whose nonempty token the authenticator
rejects (the connection is closed and the pump returns without forwarding)
or accepts with claims lacking a usable exp (the process panics, claim
C1). -/
theorem C5_forwarding_characterization :
    ∀ (v : String → Except String MapClaims) (c : WsClient) (msg : IngressMsg),
      wasForwarded (processMsg v c msg)
        = (!(authRejected v msg) && !(authAcceptedNoExp v msg)) := by
  intro v c msg
  by_cases hsys : (msg.InMsgCh == "sys" && msg.InMsgType == "auth") = true
  · cases hd : msg.InMsgData with
    | undecodable =>
      simp [processMsg, authRejected, authAcceptedNoExp, wasForwarded, hsys, hd]
    | authPayload tok =>
      by_cases ht : (tok == "") = true
      · simp [processMsg, authRejected, authAcceptedNoExp, wasForwarded, hsys, hd, ht]
      · cases hv : v tok with
        | error e =>
          simp [processMsg, authRejected, authAcceptedNoExp, wasForwarded, hsys, hd, ht, hv]
        | ok nc =>
          cases he : getExpOrNil nc with
          | none =>
            simp [processMsg, authRejected, authAcceptedNoExp, wasForwarded, hsys, hd, ht,
              hv, he]
          | some e =>
            simp [processMsg, authRejected, authAcceptedNoExp, wasForwarded, hsys, hd, ht,
              hv, he]
  · simp [processMsg, authRejected, authAcceptedNoExp, wasForwarded, hsys]

/-- Claim C6, counterexample: a SendResponse or SendUpdate issued after the
write pump has exited does not resolve - the egress channel is unbuffered,
never closed anywhere in the package, and has no receiver left, so the send
blocks the caller forever rather than acting as a no-op or returning an
error. -/
theorem C6_send_after_teardown_never_resolves :
    sendResolves (sendResponseOutcome false) = false := by
  decide

/-- Claim C6, amended: a send after teardown never panics (the egress
channel is never closed, and only a send on a closed channel panics), but it
blocks the caller forever instead of resolving as a no-op or an error. -/
theorem C6_send_no_panic_but_blocks :
    sendResponseOutcome false = ChanSendOutcome.blocksForever
    ∧ ∀ r : Bool, sendResponseOutcome r ≠ ChanSendOutcome.panicked := by
  refine ⟨rfl, ?_⟩
  intro r
  cases r <;> simp [sendResponseOutcome, chanSend, egressChanClosed]

theorem lookup_filter_self (m : Registry) (id : Nat) :
    (m.filter (fun p => !(p.1 == id))).lookup id = none := by
  induction m with
  | nil => rfl
  | cons p rest ih =>
    by_cases h : p.1 = id
    · simp [List.filter_cons, h, ih]
    · have h' : (id == p.1) = false := by
        simp only [beq_eq_false_iff_ne, ne_eq]
        exact fun he => h he.symm
      simp [List.filter_cons, List.lookup, h, h', ih]

theorem removeClient_lookup_none (m : Registry) (id : Nat) :
    ((removeClient m id).1).lookup id = none := by
  unfold removeClient
  cases h : m.lookup id with
  | some c => simp [lookup_filter_self]
  | none => simpa using h

/-- Claim C7: registry removal is idempotent - after a removal, removing the
same id again leaves the registry unchanged and performs zero socket closes
(the source guards the close and delete behind a membership check, part_001
lines 86-89) - and a double close of the socket through WsClient.Close never
yields a panic, only a discarded already-closed error. -/
theorem C7_removal_idempotent :
    ∀ (m : Registry) (id : Nat) (c : WsClient),
      removeClient (removeClient m id).1 id = ((removeClient m id).1, 0)
      ∧ (closeClient c).2 ≠ some SocketCloseResult.panicked
      ∧ (closeClient (closeClient c).1).2 ≠ some SocketCloseResult.panicked := by
  intro m id c
  refine ⟨?_, ?_, ?_⟩
  · have key : ∀ (m' : Registry), m'.lookup id = none → removeClient m' id = (m', 0) := by
      intro m' hm
      simp [removeClient, hm]
    exact key _ (removeClient_lookup_none m id)
  · cases hc : c.hasConnection <;> cases hs : c.socketOpen <;>
      simp [closeClient, connClose, hc, hs]
  · cases hc : c.hasConnection <;>
      simp [closeClient, connClose, hc]

/-- Claim C8: id assignment is not atomic - nextClientID++ runs outside the
manager lock (part_001 line 100), so in the interleaving where both handlers
read the counter before either writes it back, both connections are assigned
id 1 and the second registration overwrites the first one's registry entry;
the claim of distinct, monotonic ids under concurrency is violated while the
spec and the manager's own locking discipline clearly intend it. -/
theorem C8_race_assigns_equal_ids :
    programOrderOk racySchedule = true
    ∧ (runRace racySchedule initRace).idA = some 1
    ∧ (runRace racySchedule initRace).idB = some 1
    ∧ (addClient (addClient [] (attachConn (NewClient 1 none 0 1000)))
        (attachConn (NewClient 1 (some [("exp", ClaimValue.num 2000)]) 2000 1000))).length
      = 1 := by
  decide

theorem splitOnDot_no_dot (l : List Char) (h : '.' ∉ l) : splitOnDot l = [l] := by
  induction l with
  | nil => rfl
  | cons ch rest ih =>
    have hch : ¬(ch = '.') := fun he => h (he ▸ List.mem_cons_self ch rest)
    have hrest : '.' ∉ rest := fun hm => h (List.mem_cons_of_mem _ hm)
    simp [splitOnDot, hch, ih hrest]

theorem splitOnDot_append (h t : List Char) (hh : '.' ∉ h) :
    splitOnDot (h ++ '.' :: t) = h :: splitOnDot t := by
  induction h with
  | nil => simp [splitOnDot]
  | cons ch rest ih =>
    have hch : ¬(ch = '.') := fun he => hh (he ▸ List.mem_cons_self ch rest)
    have hrest : '.' ∉ rest := fun hm => hh (List.mem_cons_of_mem _ hm)
    simp [splitOnDot, hch, ih hrest]

theorem splitOnDot_mkToken (h p s : List Char)
    (hh : '.' ∉ h) (hp : '.' ∉ p) (hs : '.' ∉ s) :
    splitOnDot (mkToken h p s) = [h, p, s] := by
  unfold mkToken
  rw [splitOnDot_append _ _ hh, splitOnDot_append _ _ hp, splitOnDot_no_dot _ hs]

/-- Claim C9: the shipped OpenAuthenticator performs no signature
verification - for every structurally well-formed JWT the returned claims
depend only on the header and payload segments, never on the signature
segment, and an error is returned exactly when parsing (segment count,
header decode, claims decode) fails. -/
theorem C9_signature_independent :
    ∀ (P : JwtParserModel) (h p s1 s2 : List Char),
      '.' ∉ h → '.' ∉ p → '.' ∉ s1 → '.' ∉ s2 →
      ValidateJwt P (mkToken h p s1) = ValidateJwt P (mkToken h p s2)
      ∧ isOkE (ValidateJwt P (mkToken h p s1))
          = (P.decodeHeaderOk h && (P.decodeClaims p).isSome) := by
  intro P h p s1 s2 hh hp h1 h2
  have e1 := splitOnDot_mkToken h p s1 hh hp h1
  have e2 := splitOnDot_mkToken h p s2 hh hp h2
  cases hH : P.decodeHeaderOk h <;> cases hC : P.decodeClaims p <;>
    simp [ValidateJwt, parseUnverified, isOkE, e1, e2, hH, hC]

/-- Witness for C9 at a concrete parser model and concrete segments. -/
theorem C9_signature_independent_witness :
    ('.' ∉ (['a'] : List Char)) ∧ ('.' ∉ (['b'] : List Char))
    ∧ ('.' ∉ (['c'] : List Char)) ∧ ('.' ∉ (['d'] : List Char))
    ∧ (ValidateJwt probeJwtModel (mkToken ['a'] ['b'] ['c'])
          = ValidateJwt probeJwtModel (mkToken ['a'] ['b'] ['d'])
       ∧ isOkE (ValidateJwt probeJwtModel (mkToken ['a'] ['b'] ['c']))
          = (probeJwtModel.decodeHeaderOk ['a']
              && (probeJwtModel.decodeClaims ['b']).isSome)) :=
  ⟨by decide, by decide, by decide, by decide,
   C9_signature_independent probeJwtModel ['a'] ['b'] ['c'] ['d']
     (by decide) (by decide) (by decide) (by decide)⟩

/-- Claim C10: when the expiry signal fires while the current time is still
strictly before the stored expire value (a stale timer superseded by a later
re-authentication), the write pump's expiry branch writes no close frame and
leaves the whole client state - claims, authenticated, expire, socket -
unchanged. -/
theorem C10_stale_timer_noop :
    ∀ (c : WsClient) (now : Int), now < c.expire →
      (handleAuthChannelFire c now).1 = c
      ∧ (handleAuthChannelFire c now).2 = false := by
  intro c now h
  have hn : ¬(c.expire ≤ now) := not_le.mpr h
  simp [handleAuthChannelFire, hn]

/-- Witness for C10 at a concrete client and time. -/
theorem C10_stale_timer_noop_witness :
    (1000 : Int) < (NewClient 1 none 0 1000).expire
    ∧ ((handleAuthChannelFire (NewClient 1 none 0 1000) 1000).1 = NewClient 1 none 0 1000
       ∧ (handleAuthChannelFire (NewClient 1 none 0 1000) 1000).2 = false) :=
  ⟨by decide, C10_stale_timer_noop (NewClient 1 none 0 1000) 1000 (by decide)⟩
